import Mathlib

/-!
Verification of the authentication core of the `cloudx` CLI package
(`client.go`-style auth module: `AuthContext`, `WriteConfig`, `readConfig`,
`EnsureContext`, `Authenticate`, `signin`, `signup`, `sessionToContext`,
`SignOut`).

The Go code is embedded shallowly:

* JSON documents are the inductive `Json` (strings and objects suffice for
  every document this module produces or inspects).
* `uuid.UUID` values are modelled by their canonical string form; the Go
  zero value (the nil UUID) is `uuidNil`.
* The filesystem slot at the resolved config location is `FileState`.
* All interactive and network effects of the flow state machine are driven
  by a `Script`: a finite list of responses for each effect kind, consumed
  in order.  A run also produces a `Trace` recording prompts asked, flow
  initiations, submissions issued and step-up escalations taken.
-/

namespace OryCli

/-- The constant `version = "v0alpha0"` from the Go constant block. -/
def version : String := "v0alpha0"

/-- JSON values.  Strings and objects (ordered field lists) are the only
shapes the auth module ever writes or branches on. -/
inductive Json where
  | str (s : String)
  | obj (fields : List (String × Json))
deriving Repr

/-- Model of `uuid.UUID` by its canonical string rendering. -/
abbrev Uuid := String

/-- The nil UUID: the Go zero value of `uuid.UUID`. -/
def uuidNil : Uuid := "00000000-0000-0000-0000-000000000000"

/-- Go struct `AuthIdentity { ID uuid.UUID; Email string `json:"email"` }`. -/
structure AuthIdentity where
  ID : Uuid
  Email : String
deriving DecidableEq, Repr

/-- Go struct `AuthContext` with its four JSON-tagged fields. -/
structure AuthContext where
  Version : String
  SessionToken : String
  SelectedProject : Uuid
  IdentityTraits : AuthIdentity
deriving DecidableEq, Repr

/-- The Go zero value `new(AuthContext)`: empty strings and nil UUIDs. -/
def zeroAuthContext : AuthContext :=
  { Version := ""
    SessionToken := ""
    SelectedProject := uuidNil
    IdentityTraits := { ID := uuidNil, Email := "" } }

/-- Encoding (`json.Encoder.Encode`) of an `AuthContext`: field order and JSON keys
follow the struct tags (`version`, `session_token`, `selected_project`,
`session_identity_traits`; the untagged `ID` keeps its Go name). -/
def encodeAuthContext (c : AuthContext) : Json :=
  .obj [("version", .str c.Version),
        ("session_token", .str c.SessionToken),
        ("selected_project", .str c.SelectedProject),
        ("session_identity_traits",
          .obj [("ID", .str c.IdentityTraits.ID),
                ("email", .str c.IdentityTraits.Email)])]

/-- First binding of a key in a JSON object field list. -/
def lookupField : List (String × Json) → String → Option Json
  | [], _ => none
  | (k, v) :: rest, key => if k = key then some v else lookupField rest key

/-- Decoding one string-typed struct field, as `encoding/json` does: a
missing key leaves the Go zero value `""`; a non-string value is a decode
error (`none`). -/
def decodeStringField (fields : List (String × Json)) (key : String) :
    Option String :=
  match lookupField fields key with
  | none => some ""
  | some (.str s) => some s
  | some (.obj _) => none

/-- Decoding one `uuid.UUID` struct field: a missing key leaves the Go zero
value (the nil UUID); a string is parsed as a UUID (the parse itself is
abstracted away by the canonical-string model); a non-string is a decode
error. -/
def decodeUuidField (fields : List (String × Json)) (key : String) :
    Option Uuid :=
  match lookupField fields key with
  | none => some uuidNil
  | some (.str s) => some s
  | some (.obj _) => none

/-- Decoding (`encoding/json`) of the nested `AuthIdentity` struct. -/
def decodeAuthIdentity (j : Json) : Option AuthIdentity :=
  match j with
  | .str _ => none
  | .obj fields => do
    let id ← decodeUuidField fields "ID"
    let email ← decodeStringField fields "email"
    some { ID := id, Email := email }

/-- Decoding (`encoding/json`) of an `AuthContext` document. -/
def decodeAuthContext (j : Json) : Option AuthContext :=
  match j with
  | .str _ => none
  | .obj fields => do
    let v ← decodeStringField fields "version"
    let tok ← decodeStringField fields "session_token"
    let proj ← decodeUuidField fields "selected_project"
    let traits ←
      match lookupField fields "session_identity_traits" with
      | none => some ({ ID := uuidNil, Email := "" } : AuthIdentity)
      | some tj => decodeAuthIdentity tj
    some { Version := v, SessionToken := tok, SelectedProject := proj,
           IdentityTraits := traits }

/-- The state of the file at the resolved config location: absent, failing
with a non-not-exist I/O error on open, or holding a JSON document. -/
inductive FileState where
  | absent
  | ioError
  | content (j : Json)
deriving Repr

/-- The error taxonomy of `readConfig`: the `ErrNoConfig` sentinel for a
missing file, wrapped open/read failures, wrapped JSON-decode failures. -/
inductive ConfigError where
  | noConfig
  | ioFailure
  | decodeFailure
deriving DecidableEq, Repr

/-- Model of `(h *Auth) readConfig`: `fs.ErrNotExist` on open maps to the sentinel;
any other open error is wrapped (non-sentinel); a JSON decode failure is
wrapped (non-sentinel); otherwise the decoded context is returned.
(The Go function also returns a fresh zero context alongside `ErrNoConfig`;
callers only inspect the error, so the `Except` model drops that value.) -/
def readConfig : FileState → Except ConfigError AuthContext
  | .absent => .error .noConfig
  | .ioError => .error .ioFailure
  | .content j =>
    match decodeAuthContext j with
    | some c => .ok c
    | none => .error .decodeFailure

/-- Model of `(h *Auth) WriteConfig`, which first executes `c.Version = version`, mutating
the caller's context through the pointer; this is the value that gets
encoded (and that the caller observes afterwards). -/
def writeConfigStored (c : AuthContext) : AuthContext :=
  { c with Version := version }

/-- The file content after a successful `WriteConfig(c)`: the document is
truncated and rewritten with the JSON encoding of the version-stamped
context. -/
def writeConfigFS (c : AuthContext) : FileState :=
  .content (encodeAuthContext (writeConfigStored c))

/-- Model of `(h *Auth) SignOut`, as a transition on the config file state:
`WriteConfig(new(AuthContext))`.  It never reads the prior state and
involves no network effect (its definition takes no `Script`). -/
def signOutRun (_prior : FileState) : FileState :=
  writeConfigFS zeroAuthContext

/-- The `version` field of the stored JSON document, if any. -/
def storedVersion : FileState → Option Json
  | .content (.obj fields) => lookupField fields "version"
  | _ => none

/-- Encoding then decoding an `AuthContext` is lossless. -/
theorem decode_encode (c : AuthContext) :
    decodeAuthContext (encodeAuthContext c) = some c := by
  simp [decodeAuthContext, encodeAuthContext, lookupField, decodeStringField,
    decodeUuidField, decodeAuthIdentity]

/-! ### The flow state machine -/

mutual
/-- Raw compact JSON rendering (what `gjson`'s `Result.String()` returns for
a non-scalar result). -/
def renderJson : Json → String
  | .str s => "\"" ++ s ++ "\""
  | .obj fields => "\x7b" ++ renderFields fields ++ "\x7d"

/-- Raw rendering of an object's field list. -/
def renderFields : List (String × Json) → String
  | [] => ""
  | [kv] => "\"" ++ kv.1 ++ "\":" ++ renderJson kv.2
  | kv :: rest =>
    "\"" ++ kv.1 ++ "\":" ++ renderJson kv.2 ++ "," ++ renderFields rest
end

/-- Model of `(h *Auth) getField(i, path).String()` for a single-key path: encode the
document, look the key up with `gjson`, and render the result as a string.
A missing key or a non-object root yields the empty string (`gjson`'s
zero `Result`); a string value yields itself; an object value yields its
raw JSON. -/
def gjsonGetString (j : Json) (key : String) : String :=
  match j with
  | .obj fields =>
    match lookupField fields key with
    | some (.str s) => s
    | some (.obj o) => renderJson (.obj o)
    | none => ""
  | .str _ => ""

/-- One hexadecimal digit. -/
def isHexDigit (c : Char) : Bool :=
  c.isDigit || ('a' ≤ c && c ≤ 'f') || ('A' ≤ c && c ≤ 'F')

/-- Character shape of the canonical UUID form at position `i`. -/
def uuidCharOk (i : Nat) (c : Char) : Bool :=
  if i = 8 || i = 13 || i = 18 || i = 23 then c = '-' else isHexDigit c

/-- Canonical 36-character UUID form (the shape `uuid.FromString` parses in
the canonical-string model of `uuid.UUID`). -/
def isCanonicalUuid (s : String) : Bool :=
  s.data.length = 36 && s.data.enum.all fun p => uuidCharOk p.1 p.2

/-- Model of `uuid.FromStringOrNil`: the parsed UUID, or the nil UUID when parsing
fails. -/
def fromStringOrNil (s : String) : Uuid :=
  if isCanonicalUuid s then s else uuidNil

/-- A kratos session: the identity id string and the schemaless identity
traits document. -/
structure Session where
  identityId : String
  traits : Json
deriving Repr

/-- Model of `(h *Auth) sessionToContext`: stamps the current version, stores the
token, extracts the `email` trait by structured lookup (empty when the
trait is absent) and the identity id leniently; `SelectedProject` is left
at the Go zero value (the nil UUID). -/
def sessionToContext (sess : Session) (token : String) : AuthContext :=
  { Version := version
    SessionToken := token
    SelectedProject := uuidNil
    IdentityTraits :=
      { Email := gjsonGetString sess.traits "email"
        ID := fromStringOrNil sess.identityId } }

/-- One node of a flow's UI description; only its `group` tag drives the
auth module. -/
structure UiNode where
  group : String
deriving DecidableEq, Repr

/-- A self-service flow: its identifier and its UI node list. -/
structure Flow where
  id : String
  ui : List UiNode
deriving DecidableEq, Repr

/-- Response to a flow-initiation request. -/
inductive InitResult where
  | ok (f : Flow)
  | err
deriving Repr

/-- Response to a login-flow submission: success with a (possibly empty)
returned session token, a `GenericOpenAPIError` carrying a replacement
`SelfServiceLoginFlow`, or any other error (fatal). -/
inductive LoginSubmitResult where
  | ok (tok : String)
  | replacement (f : Flow)
  | fatal
deriving Repr

/-- Response to a `ToSession` exchange in the login path: a session, a
structured error with `error.id = "session_aal2_required"`, or any other
error. -/
inductive ExchangeResult where
  | ok (s : Session)
  | errAal2
  | errOther
deriving Repr

/-- Response to a registration-flow submission. -/
inductive RegSubmitResult where
  | ok (tok : String)
  | replacement (f : Flow)
  | fatal
deriving Repr

/-- Response to a `ToSession` exchange in the registration path. -/
inductive RegExchangeResult where
  | ok (s : Session)
  | err
deriving Repr

/-- A scripted environment: finite response lists for each effect kind,
consumed in order. -/
structure Script where
  prompts : List Bool := []
  loginInits : List InitResult := []
  loginSubmits : List LoginSubmitResult := []
  loginExchanges : List ExchangeResult := []
  regInits : List InitResult := []
  regSubmits : List RegSubmitResult := []
  regExchanges : List RegExchangeResult := []
deriving Repr

/-- The three confirmation prompts the orchestration can ask. -/
inductive PromptKind where
  | continueAsUser
  | switchAccount
  | hasAccount
deriving DecidableEq, Repr

/-- Observable trace of a run: prompts asked, login initiations (with the
session token supplied to each), login and registration submissions (with
the flow identifier each one used), registration initiations, and AAL2
step-up escalations taken. -/
structure Trace where
  prompts : List PromptKind := []
  loginInits : List String := []
  loginSubmissions : List String := []
  regInitCount : Nat := 0
  regSubmissions : List String := []
  escalations : Nat := 0
deriving DecidableEq, Repr

/-- Trace concatenation. -/
def Trace.app (a b : Trace) : Trace :=
  { prompts := a.prompts ++ b.prompts
    loginInits := a.loginInits ++ b.loginInits
    loginSubmissions := a.loginSubmissions ++ b.loginSubmissions
    regInitCount := a.regInitCount + b.regInitCount
    regSubmissions := a.regSubmissions ++ b.regSubmissions
    escalations := a.escalations + b.escalations }

instance : Append Trace := ⟨Trace.app⟩

/-- The dynamic (interface-typed) `form` variable of `signin`: it starts as
a pointer to the password-method body and may be replaced by a pointer to
the TOTP-method body; `otherDyn` stands for every other dynamic value the
interface type could hold. -/
inductive LoginFormDyn where
  | passwordBody
  | totpBody
  | otherDyn
deriving DecidableEq, Repr

/-- Method negotiation of `signin` (its lines between the retry label and
the form rendering): without a prior session token the method is
`password`; with one, the flow's UI node groups are scanned in one pass
for `totp` and `lookup_secret`; neither present is a fatal error; with
`totp` present the form becomes the TOTP body and the method `totp`;
otherwise the method is `lookup_secret` (the dynamic form value stays the
password body, as in the source). -/
def negotiateLoginForm (sessionToken : String) (flow : Flow) :
    Except String (String × LoginFormDyn) :=
  if sessionToken.length > 0 then
    let foundTOTP := flow.ui.any fun n => n.group == "totp"
    let foundLookup := flow.ui.any fun n => n.group == "lookup_secret"
    if !foundLookup && !foundTOTP then
      .error "only TOTP and lookup secrets are supported for two-step verification in the CLI"
    else if foundTOTP then
      .ok ("totp", .totpBody)
    else
      .ok ("lookup_secret", .passwordBody)
  else
    .ok ("password", .passwordBody)

/-- The tagged union `SubmitSelfServiceLoginFlowBody` (which variant got
populated). -/
inductive LoginBody where
  | passwordVariant
  | totpVariant
deriving DecidableEq, Repr

/-- The runtime type switch converting the dynamic form value into the
submission body; the `default` branch is `panic("unexpected type")`,
modelled as `none`. -/
def loginFormToBody : LoginFormDyn → Option LoginBody
  | .passwordBody => some .passwordVariant
  | .totpBody => some .totpVariant
  | .otherDyn => none

/-- Outcome of `signin`/`signup`: a resolved context, a fatal error, the
panic of the type switch, or a run that outran its script. -/
inductive LoginResult where
  | ok (c : AuthContext)
  | fatal
  | panicked
  | exhausted
deriving DecidableEq, Repr

/-- Script fuel consumed by the login path. -/
def scriptMeasure (s : Script) : Nat :=
  s.loginInits.length + s.loginSubmits.length + s.loginExchanges.length

mutual
/-- Model of `(h *Auth) signin`: initiate a login flow (requesting AAL2 when a prior
session token is supplied), then enter the render/submit loop.  Form
rendering is modelled as always succeeding (its input errors are
orthogonal to every claim). -/
def signin (sessionToken : String) (s : Script) :
    LoginResult × Script × Trace :=
  match h : s.loginInits with
  | [] => (.exhausted, s, { loginInits := [sessionToken] })
  | r :: rest =>
    let s1 := { s with loginInits := rest }
    match r with
    | .err => (.fatal, s1, { loginInits := [sessionToken] })
    | .ok flow =>
      let out := signinForm sessionToken flow s1
      (out.1, out.2.1, ({ loginInits := [sessionToken] } : Trace) ++ out.2.2)
termination_by scriptMeasure s
decreasing_by all_goals (simp_all [scriptMeasure]; try omega)

/-- The `retryLogin` loop body of `signin`: negotiate the method from the
current flow's UI nodes, convert the dynamic form value through the type
switch, submit with the current flow's identifier, and dispatch on the
outcome — replacement flow restarts the loop, a token moves on to the
session exchange, where `session_aal2_required` re-enters `signin` with
the coalesced token. -/
def signinForm (sessionToken : String) (flow : Flow) (s : Script) :
    LoginResult × Script × Trace :=
  match negotiateLoginForm sessionToken flow with
  | .error _ => (.fatal, s, {})
  | .ok (_method, form) =>
    match loginFormToBody form with
    | none => (.panicked, s, {})
    | some _body =>
      match h : s.loginSubmits with
      | [] => (.exhausted, s, {})
      | r :: rest =>
        let s1 := { s with loginSubmits := rest }
        let t0 : Trace := { loginSubmissions := [flow.id] }
        match r with
        | .fatal => (.fatal, s1, t0)
        | .replacement f =>
          let out := signinForm sessionToken f s1
          (out.1, out.2.1, t0 ++ out.2.2)
        | .ok tok =>
          let newTok := if tok = "" then sessionToken else tok
          match h2 : s1.loginExchanges with
          | [] => (.exhausted, s1, t0)
          | er :: erest =>
            let s2 := { s1 with loginExchanges := erest }
            match er with
            | .ok sess => (.ok (sessionToContext sess newTok), s2, t0)
            | .errAal2 =>
              let out := signin newTok s2
              (out.1, out.2.1,
                t0 ++ ({ escalations := 1 } : Trace) ++ out.2.2)
            | .errOther => (.fatal, s2, t0)
termination_by scriptMeasure s
decreasing_by all_goals (simp_all [scriptMeasure]; try omega)
end

/-- The `retryRegistration` loop body of `signup`: render the password
form, submit with the current flow's identifier, adopt a replacement flow
on a validation error, exchange the token on success (any exchange error
is fatal here — no step-up in registration). -/
def signupForm (flow : Flow) (s : Script) : LoginResult × Script × Trace :=
  match h : s.regSubmits with
  | [] => (.exhausted, s, {})
  | r :: rest =>
    let s1 := { s with regSubmits := rest }
    let t0 : Trace := { regSubmissions := [flow.id] }
    match r with
    | .fatal => (.fatal, s1, t0)
    | .replacement f =>
      let out := signupForm f s1
      (out.1, out.2.1, t0 ++ out.2.2)
    | .ok tok =>
      match s1.regExchanges with
      | [] => (.exhausted, s1, t0)
      | er :: erest =>
        let s2 := { s1 with regExchanges := erest }
        match er with
        | .ok sess => (.ok (sessionToContext sess tok), s2, t0)
        | .err => (.fatal, s2, t0)
termination_by s.regSubmits.length
decreasing_by all_goals (simp_all; try omega)

/-- Model of `(h *Auth) signup`: initiate a registration flow, then enter the
render/submit loop. -/
def signup (s : Script) : LoginResult × Script × Trace :=
  match s.regInits with
  | [] => (.exhausted, s, { regInitCount := 1 })
  | r :: rest =>
    let s1 := { s with regInits := rest }
    match r with
    | .err => (.fatal, s1, { regInitCount := 1 })
    | .ok flow =>
      let out := signupForm flow s1
      (out.1, out.2.1, ({ regInitCount := 1 } : Trace) ++ out.2.2)

/-- Outcome of the orchestrators, whose Go functions can return a nil
context with a nil error. -/
inductive OrchResult where
  | ok (c : Option AuthContext)
  | fatal
  | panicked
  | exhausted
deriving DecidableEq, Repr

/-- The tail of `Authenticate` (from `newConsoleClient`, modelled as always
succeeding, to the end): ask whether the user already has a console
account, branch to `signin` (with no session token) or `signup`, and on
success persist the resolved context — the pointer mutation of
`WriteConfig` means the caller returns the version-stamped value. -/
def authenticateBody (fs : FileState) (s : Script) :
    OrchResult × FileState × Script × Trace :=
  match s.prompts with
  | [] => (.exhausted, fs, s, {})
  | ans :: ps =>
    let s1 := { s with prompts := ps }
    let t1 : Trace := { prompts := [.hasAccount] }
    let out := if ans then signin "" s1 else signup s1
    match out.1 with
    | .ok c =>
      (.ok (some (writeConfigStored c)), writeConfigFS c, out.2.1,
        t1 ++ out.2.2)
    | .fatal => (.fatal, fs, out.2.1, t1 ++ out.2.2)
    | .panicked => (.panicked, fs, out.2.1, t1 ++ out.2.2)
    | .exhausted => (.exhausted, fs, out.2.1, t1 ++ out.2.2)

/-- Model of `(h *Auth) Authenticate`: refuse under `--yes`; read the config,
treating `ErrNoConfig` as "return nil, nil"; when a session token is
already present ask whether to switch accounts (declining returns the
stored context unchanged, accepting signs out first); then run the
sign-in/sign-up branch. -/
def authenticate (noConfirm : Bool) (fs : FileState) (s : Script) :
    OrchResult × FileState × Script × Trace :=
  if noConfirm then (.fatal, fs, s, {})
  else
    match readConfig fs with
    | .error .noConfig => (.ok none, fs, s, {})
    | .error _ => (.fatal, fs, s, {})
    | .ok ac =>
      if ac.SessionToken.length > 0 then
        match s.prompts with
        | [] => (.exhausted, fs, s, { prompts := [.switchAccount] })
        | ans :: ps =>
          let s1 := { s with prompts := ps }
          let t1 : Trace := { prompts := [.switchAccount] }
          if !ans then (.ok (some ac), fs, s1, t1)
          else
            let fs1 := signOutRun fs
            let out := authenticateBody fs1 s1
            (out.1, out.2.1, out.2.2.1, t1 ++ out.2.2.2)
      else
        authenticateBody fs s

/-- Model of `(h *Auth) EnsureContext`: read the config, treating `ErrNoConfig` as
"return nil, nil"; with a session token present, ask for confirmation to
continue as that user (skipped and auto-confirmed under `--yes`),
signing out and re-authenticating on decline; with no token, run
`Authenticate` and return its result unchanged. -/
def ensureContext (noConfirm : Bool) (fs : FileState) (s : Script) :
    OrchResult × FileState × Script × Trace :=
  match readConfig fs with
  | .error .noConfig => (.ok none, fs, s, {})
  | .error _ => (.fatal, fs, s, {})
  | .ok c =>
    if c.SessionToken.length > 0 then
      if noConfirm then (.ok (some c), fs, s, {})
      else
        match s.prompts with
        | [] => (.exhausted, fs, s, { prompts := [.continueAsUser] })
        | ans :: ps =>
          let s1 := { s with prompts := ps }
          let t1 : Trace := { prompts := [.continueAsUser] }
          if ans then (.ok (some c), fs, s1, t1)
          else
            let fs1 := signOutRun fs
            let out := authenticate noConfirm fs1 s1
            (out.1, out.2.1, out.2.2.1, t1 ++ out.2.2.2)
    else
      authenticate noConfirm fs s

/-! ### Helper lemmas -/

lemma trace_app_eq (a b : Trace) : a ++ b =
    { prompts := a.prompts ++ b.prompts
      loginInits := a.loginInits ++ b.loginInits
      loginSubmissions := a.loginSubmissions ++ b.loginSubmissions
      regInitCount := a.regInitCount + b.regInitCount
      regSubmissions := a.regSubmissions ++ b.regSubmissions
      escalations := a.escalations + b.escalations } := rfl

lemma length_pos_of_ne_empty {s : String} (h : s ≠ "") : 0 < s.length := by
  cases s with
  | mk l =>
    cases l with
    | nil => simp_all
    | cons c cs => simp [String.length]

lemma readConfig_writeConfig (c : AuthContext) :
    readConfig (writeConfigFS c) = .ok (writeConfigStored c) := by
  simp [readConfig, writeConfigFS, decode_encode]

/-! ### C6 — the NoConfig sentinel -/

/-- C6: loading the config yields the `NoConfig` sentinel exactly when the
file at the resolved path is absent; an open/read failure or a JSON-decode
failure yields a different (non-sentinel) error, so callers can branch
reliably on file absence. -/
theorem c6_noConfig_sentinel (fs : FileState) :
    readConfig fs = .error .noConfig ↔ fs = .absent := by
  cases fs with
  | absent => simp [readConfig]
  | ioError => simp [readConfig]
  | content j =>
    simp only [readConfig]
    cases h : decodeAuthContext j <;> simp

/-- Evaluation of C6 at concrete file states: an absent file is the
sentinel, an I/O failure is not. -/
theorem c6_noConfig_sentinel_witness :
    readConfig .absent = .error .noConfig ∧
    readConfig .ioError ≠ .error .noConfig :=
  ⟨(c6_noConfig_sentinel .absent).mpr rfl,
   fun h => FileState.noConfusion ((c6_noConfig_sentinel .ioError).mp h)⟩

/-! ### C5 — save/load round-trip -/

/-- C5 as stated is false: saving stamps `Version` with `"v0alpha0"`, so a
context whose `Version` differs (here the empty string, with all other
fields valid) does not load back equal to the value handed to save. -/
theorem c5_roundtrip_counterexample :
    readConfig (writeConfigFS
      { Version := "", SessionToken := "tok", SelectedProject := uuidNil,
        IdentityTraits := { ID := uuidNil, Email := "a@example.com" } }) ≠
      .ok { Version := "", SessionToken := "tok", SelectedProject := uuidNil,
            IdentityTraits := { ID := uuidNil, Email := "a@example.com" } } := by
  rw [readConfig_writeConfig]
  simp [writeConfigStored, version]

/-- C5 amended: for every `AuthContext` whose `Version` field already holds
the fixed version string, save followed by load yields an equal value (in
general, load yields the saved value with `Version` overwritten to
`"v0alpha0"`). -/
theorem c5_roundtrip (c : AuthContext) (hv : c.Version = version) :
    readConfig (writeConfigFS c) = .ok c := by
  rw [readConfig_writeConfig]
  have hc : writeConfigStored c = c := by
    cases c
    simp_all [writeConfigStored]
  rw [hc]

/-- Evaluation of C5 (amended) at a concrete version-stamped context. -/
theorem c5_roundtrip_witness :
    readConfig (writeConfigFS
      { Version := "v0alpha0", SessionToken := "tok",
        SelectedProject := uuidNil,
        IdentityTraits := { ID := uuidNil, Email := "a@example.com" } }) =
      .ok { Version := "v0alpha0", SessionToken := "tok",
            SelectedProject := uuidNil,
            IdentityTraits := { ID := uuidNil, Email := "a@example.com" } } :=
  c5_roundtrip _ rfl

/-! ### C4 — sign-out -/

/-- C4 as stated is false: the context persisted by sign-out is not the
zero value of `AuthContext` — `WriteConfig` stamps `Version` with
`"v0alpha0"` on the way out, so the loaded value differs from the zero
value in its version field. -/
theorem c4_signout_counterexample :
    readConfig (signOutRun .absent) ≠ .ok zeroAuthContext := by
  show readConfig (writeConfigFS zeroAuthContext) ≠ .ok zeroAuthContext
  rw [readConfig_writeConfig]
  simp [writeConfigStored, zeroAuthContext, version]

/-- C4 amended: for every prior on-disk state, sign-out performs no network
call (it is a pure transition of the config file, `WriteConfig` of the
zero context) and persists the zero value of `AuthContext` in every field
except `Version`, which carries the fixed version string `"v0alpha0"`. -/
theorem c4_signout (prior : FileState) :
    signOutRun prior = writeConfigFS zeroAuthContext ∧
    readConfig (signOutRun prior) =
      .ok { zeroAuthContext with Version := version } :=
  ⟨rfl, readConfig_writeConfig zeroAuthContext⟩

/-! ### C10 — the version stamp -/

/-- C10: every save overwrites the `Version` field of the passed-in value
with `"v0alpha0"` before encoding, so every persisted document carries
`version = "v0alpha0"` — including the one written by sign-out. -/
theorem c10_version_stamp (c : AuthContext) (prior : FileState) :
    (writeConfigStored c).Version = "v0alpha0" ∧
    storedVersion (writeConfigFS c) = some (.str "v0alpha0") ∧
    storedVersion (signOutRun prior) = some (.str "v0alpha0") := by
  refine ⟨rfl, ?_, ?_⟩ <;>
    simp [storedVersion, writeConfigFS, encodeAuthContext, lookupField,
      signOutRun, writeConfigStored, version]

/-! ### C1 — step-up method negotiation -/

/-- C1: with a prior session token supplied, the negotiated method is
`totp` whenever a `totp` UI node group is present (even alongside
`lookup_secret`); otherwise `lookup_secret` if that group is present; and
with neither group the negotiation fails with the unsupported-second-factor
error and the login loop returns fatally with no submission issued (its
trace is empty). -/
theorem c1_stepup_method_negotiation (sessionToken : String) (flow : Flow)
    (htok : sessionToken ≠ "") :
    ((∃ n ∈ flow.ui, n.group = "totp") →
      negotiateLoginForm sessionToken flow = .ok ("totp", .totpBody)) ∧
    ((¬ ∃ n ∈ flow.ui, n.group = "totp") →
      (∃ n ∈ flow.ui, n.group = "lookup_secret") →
      negotiateLoginForm sessionToken flow =
        .ok ("lookup_secret", .passwordBody)) ∧
    ((¬ ∃ n ∈ flow.ui, n.group = "totp") →
      (¬ ∃ n ∈ flow.ui, n.group = "lookup_secret") →
      negotiateLoginForm sessionToken flow = .error
        "only TOTP and lookup secrets are supported for two-step verification in the CLI" ∧
      ∀ s : Script, signinForm sessionToken flow s = (.fatal, s, {})) := by
  have hlen := length_pos_of_ne_empty htok
  refine ⟨?_, ?_, ?_⟩
  · intro ht
    have ha : (flow.ui.any fun n => n.group == "totp") = true := by
      simpa [List.any_eq_true] using ht
    simp [negotiateLoginForm, hlen, ha]
  · intro hnt hl
    have ha : (flow.ui.any fun n => n.group == "totp") = false := by
      simpa [List.any_eq_true] using hnt
    have hb : (flow.ui.any fun n => n.group == "lookup_secret") = true := by
      simpa [List.any_eq_true] using hl
    simp [negotiateLoginForm, hlen, ha, hb]
  · intro hnt hnl
    have ha : (flow.ui.any fun n => n.group == "totp") = false := by
      simpa [List.any_eq_true] using hnt
    have hb : (flow.ui.any fun n => n.group == "lookup_secret") = false := by
      simpa [List.any_eq_true] using hnl
    have herr : negotiateLoginForm sessionToken flow = .error
        "only TOTP and lookup secrets are supported for two-step verification in the CLI" := by
      simp [negotiateLoginForm, hlen, ha, hb]
    exact ⟨herr, fun s => by simp [signinForm.eq_def, herr]⟩

/-- Evaluation of C1 at concrete flows: both groups negotiate `totp`, only
`lookup_secret` negotiates `lookup_secret`, neither fails fatally with no
submission. -/
theorem c1_stepup_method_negotiation_witness :
    negotiateLoginForm "tok" ⟨"f1", [⟨"lookup_secret"⟩, ⟨"totp"⟩]⟩ =
      .ok ("totp", .totpBody) ∧
    negotiateLoginForm "tok" ⟨"f2", [⟨"lookup_secret"⟩]⟩ =
      .ok ("lookup_secret", .passwordBody) ∧
    negotiateLoginForm "tok" ⟨"f3", [⟨"password"⟩]⟩ = .error
      "only TOTP and lookup secrets are supported for two-step verification in the CLI" ∧
    signinForm "tok" ⟨"f3", [⟨"password"⟩]⟩ {} = (.fatal, {}, {}) := by
  have h1 := c1_stepup_method_negotiation "tok"
    ⟨"f1", [⟨"lookup_secret"⟩, ⟨"totp"⟩]⟩ (by decide)
  have h2 := c1_stepup_method_negotiation "tok"
    ⟨"f2", [⟨"lookup_secret"⟩]⟩ (by decide)
  have h3 := c1_stepup_method_negotiation "tok"
    ⟨"f3", [⟨"password"⟩]⟩ (by decide)
  exact ⟨h1.1 (by decide), h2.2.1 (by decide) (by decide),
    (h3.2.2 (by decide) (by decide)).1, (h3.2.2 (by decide) (by decide)).2 {}⟩

/-! ### C9 — the type-switch default is unreachable -/

lemma negotiateLoginForm_form (tok : String) (flow : Flow)
    (p : String × LoginFormDyn)
    (h : negotiateLoginForm tok flow = .ok p) :
    ∃ b, loginFormToBody p.2 = some b := by
  simp only [negotiateLoginForm] at h
  split_ifs at h <;>
    first
    | (simp only [Except.ok.injEq] at h; subst h; exact ⟨_, rfl⟩)
    | simp at h

/-- C9: the `default: panic("unexpected type")` branch of the type switch
converting the login form into a submission body is unreachable — no run
of `signin`, whatever the session token and the scripted environment,
ends in the panic outcome. -/
theorem c9_type_switch_safe (sessionToken : String) (s : Script) :
    (signin sessionToken s).1 ≠ .panicked := by
  refine signin.induct
    (fun tok s => (signin tok s).1 ≠ .panicked)
    (fun tok flow s => (signinForm tok flow s).1 ≠ .panicked)
    ?_ ?_ ?_ ?_ ?_ ?_ ?_ ?_ ?_ ?_ ?_ ?_ sessionToken s
  · intro tok s h
    obtain ⟨p0, li, ls, le, q0, q1, q2⟩ := s
    dsimp only at h
    subst h
    rw [signin.eq_def]
    simp
  · intro tok s rest h h2
    obtain ⟨p0, li, ls, le, q0, q1, q2⟩ := s
    dsimp only at h
    subst h
    rw [signin.eq_def]
    simp
  · intro tok s rest
    try dsimp only
    intro flow h h2 ih
    obtain ⟨p0, li, ls, le, q0, q1, q2⟩ := s
    dsimp only at h ih
    subst h
    rw [signin.eq_def]
    try dsimp only
    exact ih
  · intro tok flow s a hneg
    rw [signinForm.eq_def]
    simp [hneg]
  · intro tok flow s m form hneg hnone
    obtain ⟨b, hb⟩ := negotiateLoginForm_form tok flow (m, form) hneg
    dsimp at hb
    rw [hnone] at hb
    exact Option.noConfusion hb
  · intro tok flow s m form hneg b hb h
    obtain ⟨p0, li, ls, le, q0, q1, q2⟩ := s
    dsimp only at h
    subst h
    rw [signinForm.eq_def]
    simp [hneg, hb]
  · intro tok flow s m form hneg b hb rest h h2
    obtain ⟨p0, li, ls, le, q0, q1, q2⟩ := s
    dsimp only at h
    subst h
    rw [signinForm.eq_def]
    simp [hneg, hb]
  · intro tok flow s m form hneg b hb rest
    try dsimp only
    intro f h h2 ih
    obtain ⟨p0, li, ls, le, q0, q1, q2⟩ := s
    dsimp only at h ih
    subst h
    rw [signinForm.eq_def]
    simp only [hneg, hb]
    try dsimp only
    exact ih
  · intro tok flow s m form hneg b hb rest
    try dsimp only
    intro tokR h hex h2
    obtain ⟨p0, li, ls, le, q0, q1, q2⟩ := s
    dsimp only at h hex
    subst h
    subst hex
    rw [signinForm.eq_def]
    simp [hneg, hb]
  · intro tok flow s m form hneg b hb rest
    try dsimp only
    intro tokR h erest sess hex h2 hex2
    obtain ⟨p0, li, ls, le, q0, q1, q2⟩ := s
    dsimp only at h hex
    subst h
    subst hex
    rw [signinForm.eq_def]
    simp [hneg, hb]
  · intro tok flow s m form hneg b hb rest
    try dsimp only
    intro tokR h
    try dsimp only
    intro erest
    try dsimp only
    intro hex h2 hex2 ih
    obtain ⟨p0, li, ls, le, q0, q1, q2⟩ := s
    dsimp only at h hex ih
    subst h
    subst hex
    rw [signinForm.eq_def]
    simp only [hneg, hb]
    try dsimp only
    first
    | exact ih
    | simpa using ih
  · intro tok flow s m form hneg b hb rest
    try dsimp only
    intro tokR h erest hex h2 hex2
    obtain ⟨p0, li, ls, le, q0, q1, q2⟩ := s
    dsimp only at h hex
    subst h
    subst hex
    rw [signinForm.eq_def]
    simp [hneg, hb]

/-! ### C2 — validation-failure retry -/

lemma negotiateLoginForm_empty (f : Flow) :
    negotiateLoginForm "" f = .ok ("password", .passwordBody) := by
  simp [negotiateLoginForm]

lemma signinForm_retry_ok (tok tokR : String) (sess : Session)
    (fs : List Flow) :
    ∀ (flow : Flow) (s : Script) (rest2 : List LoginSubmitResult)
      (erest : List ExchangeResult),
    (∀ f ∈ flow :: fs, ∃ p, negotiateLoginForm tok f = Except.ok p) →
    s.loginSubmits = fs.map LoginSubmitResult.replacement ++
      LoginSubmitResult.ok tokR :: rest2 →
    s.loginExchanges = ExchangeResult.ok sess :: erest →
    signinForm tok flow s =
      (.ok (sessionToContext sess (if tokR = "" then tok else tokR)),
       { s with loginSubmits := rest2, loginExchanges := erest },
       { loginSubmissions := (flow :: fs).map Flow.id }) := by
  induction fs with
  | nil =>
    intro flow s rest2 erest hneg hsub hex
    obtain ⟨⟨m, form⟩, hp⟩ := hneg flow (by simp)
    obtain ⟨b, hb⟩ := negotiateLoginForm_form tok flow (m, form) hp
    dsimp at hb
    obtain ⟨p0, li, ls, le, q0, q1, q2⟩ := s
    dsimp only at hsub hex
    subst hsub
    subst hex
    rw [signinForm.eq_def]
    simp [hp, hb]
  | cons f fs' ih =>
    intro flow s rest2 erest hneg hsub hex
    obtain ⟨⟨m, form⟩, hp⟩ := hneg flow (by simp)
    obtain ⟨b, hb⟩ := negotiateLoginForm_form tok flow (m, form) hp
    dsimp at hb
    obtain ⟨p0, li, ls, le, q0, q1, q2⟩ := s
    dsimp only at hsub hex
    subst hsub
    subst hex
    rw [signinForm.eq_def]
    simp only [hp, hb, List.map_cons, List.cons_append]
    rw [ih f _ rest2 erest
      (fun g hg => hneg g (List.mem_cons_of_mem _ hg)) rfl rfl]
    simp [trace_app_eq]

lemma signinForm_retry_fatal (tok : String) (fs : List Flow) :
    ∀ (flow : Flow) (s : Script) (rest2 : List LoginSubmitResult),
    (∀ f ∈ flow :: fs, ∃ p, negotiateLoginForm tok f = Except.ok p) →
    s.loginSubmits = fs.map LoginSubmitResult.replacement ++
      LoginSubmitResult.fatal :: rest2 →
    signinForm tok flow s =
      (.fatal, { s with loginSubmits := rest2 },
       { loginSubmissions := (flow :: fs).map Flow.id }) := by
  induction fs with
  | nil =>
    intro flow s rest2 hneg hsub
    obtain ⟨⟨m, form⟩, hp⟩ := hneg flow (by simp)
    obtain ⟨b, hb⟩ := negotiateLoginForm_form tok flow (m, form) hp
    dsimp at hb
    obtain ⟨p0, li, ls, le, q0, q1, q2⟩ := s
    dsimp only at hsub
    subst hsub
    rw [signinForm.eq_def]
    simp [hp, hb]
  | cons f fs' ih =>
    intro flow s rest2 hneg hsub
    obtain ⟨⟨m, form⟩, hp⟩ := hneg flow (by simp)
    obtain ⟨b, hb⟩ := negotiateLoginForm_form tok flow (m, form) hp
    dsimp at hb
    obtain ⟨p0, li, ls, le, q0, q1, q2⟩ := s
    dsimp only at hsub
    subst hsub
    rw [signinForm.eq_def]
    simp only [hp, hb, List.map_cons, List.cons_append]
    rw [ih f _ rest2 (fun g hg => hneg g (List.mem_cons_of_mem _ hg)) rfl]
    simp [trace_app_eq]

lemma signupForm_retry_ok (tokR : String) (sess : Session)
    (fs : List Flow) :
    ∀ (flow : Flow) (s : Script) (rest2 : List RegSubmitResult)
      (erest : List RegExchangeResult),
    s.regSubmits = fs.map RegSubmitResult.replacement ++
      RegSubmitResult.ok tokR :: rest2 →
    s.regExchanges = RegExchangeResult.ok sess :: erest →
    signupForm flow s =
      (.ok (sessionToContext sess tokR),
       { s with regSubmits := rest2, regExchanges := erest },
       { regSubmissions := (flow :: fs).map Flow.id }) := by
  induction fs with
  | nil =>
    intro flow s rest2 erest hsub hex
    obtain ⟨p0, li, ls, le, q0, q1, q2⟩ := s
    dsimp only at hsub hex
    subst hsub
    subst hex
    rw [signupForm.eq_def]
    simp
  | cons f fs' ih =>
    intro flow s rest2 erest hsub hex
    obtain ⟨p0, li, ls, le, q0, q1, q2⟩ := s
    dsimp only at hsub hex
    subst hsub
    subst hex
    rw [signupForm.eq_def]
    simp only [List.map_cons, List.cons_append]
    rw [ih f _ rest2 erest rfl rfl]
    simp [trace_app_eq]

lemma signupForm_retry_fatal (fs : List Flow) :
    ∀ (flow : Flow) (s : Script) (rest2 : List RegSubmitResult),
    s.regSubmits = fs.map RegSubmitResult.replacement ++
      RegSubmitResult.fatal :: rest2 →
    signupForm flow s =
      (.fatal, { s with regSubmits := rest2 },
       { regSubmissions := (flow :: fs).map Flow.id }) := by
  induction fs with
  | nil =>
    intro flow s rest2 hsub
    obtain ⟨p0, li, ls, le, q0, q1, q2⟩ := s
    dsimp only at hsub
    subst hsub
    rw [signupForm.eq_def]
    simp
  | cons f fs' ih =>
    intro flow s rest2 hsub
    obtain ⟨p0, li, ls, le, q0, q1, q2⟩ := s
    dsimp only at hsub
    subst hsub
    rw [signupForm.eq_def]
    simp only [List.map_cons, List.cons_append]
    rw [ih f _ rest2 rfl]
    simp [trace_app_eq]

/-- C2: in both the login and the registration path, when submission
returns a replacement flow for each of the `N` flows in `fs` and then
succeeds, exactly `N + 1` submissions are issued, each using the current
(replacement) flow's identifier — the trace of submitted flow ids is
exactly the id list of the original flow followed by the replacement
flows; and a submission error carrying no replacement flow ends the run
fatally (after the same retry prefix). -/
theorem c2_validation_retry :
    (∀ (tok tokR : String) (f0 : Flow) (fs : List Flow) (sess : Session)
        (irest : List InitResult) (rest2 : List LoginSubmitResult)
        (erest : List ExchangeResult) (s : Script),
      (∀ f ∈ f0 :: fs, ∃ p, negotiateLoginForm tok f = Except.ok p) →
      s.loginInits = .ok f0 :: irest →
      s.loginSubmits = fs.map LoginSubmitResult.replacement ++
        LoginSubmitResult.ok tokR :: rest2 →
      s.loginExchanges = ExchangeResult.ok sess :: erest →
      signin tok s =
        (.ok (sessionToContext sess (if tokR = "" then tok else tokR)),
         { s with loginInits := irest, loginSubmits := rest2,
                  loginExchanges := erest },
         { loginInits := [tok],
           loginSubmissions := (f0 :: fs).map Flow.id }) ∧
      (signin tok s).2.2.loginSubmissions.length = fs.length + 1) ∧
    (∀ (tok : String) (f0 : Flow) (fs : List Flow) (irest : List InitResult)
        (rest2 : List LoginSubmitResult) (s : Script),
      (∀ f ∈ f0 :: fs, ∃ p, negotiateLoginForm tok f = Except.ok p) →
      s.loginInits = .ok f0 :: irest →
      s.loginSubmits = fs.map LoginSubmitResult.replacement ++
        LoginSubmitResult.fatal :: rest2 →
      signin tok s =
        (.fatal, { s with loginInits := irest, loginSubmits := rest2 },
         { loginInits := [tok],
           loginSubmissions := (f0 :: fs).map Flow.id })) ∧
    (∀ (tokR : String) (f0 : Flow) (fs : List Flow) (sess : Session)
        (irest : List InitResult) (rest2 : List RegSubmitResult)
        (erest : List RegExchangeResult) (s : Script),
      s.regInits = .ok f0 :: irest →
      s.regSubmits = fs.map RegSubmitResult.replacement ++
        RegSubmitResult.ok tokR :: rest2 →
      s.regExchanges = RegExchangeResult.ok sess :: erest →
      signup s =
        (.ok (sessionToContext sess tokR),
         { s with regInits := irest, regSubmits := rest2,
                  regExchanges := erest },
         { regInitCount := 1,
           regSubmissions := (f0 :: fs).map Flow.id }) ∧
      (signup s).2.2.regSubmissions.length = fs.length + 1) ∧
    (∀ (f0 : Flow) (fs : List Flow) (irest : List InitResult)
        (rest2 : List RegSubmitResult) (s : Script),
      s.regInits = .ok f0 :: irest →
      s.regSubmits = fs.map RegSubmitResult.replacement ++
        RegSubmitResult.fatal :: rest2 →
      signup s =
        (.fatal, { s with regInits := irest, regSubmits := rest2 },
         { regInitCount := 1,
           regSubmissions := (f0 :: fs).map Flow.id })) := by
  refine ⟨?_, ?_, ?_, ?_⟩
  · intro tok tokR f0 fs sess irest rest2 erest s hneg hinit hsub hex
    obtain ⟨p0, li, ls, le, q0, q1, q2⟩ := s
    dsimp only at hinit hsub hex
    subst hinit
    subst hsub
    subst hex
    rw [signin.eq_def]
    try dsimp only
    rw [signinForm_retry_ok tok tokR sess fs f0 _ rest2 erest hneg rfl rfl]
    constructor
    · simp [trace_app_eq]
    · simp [trace_app_eq]
  · intro tok f0 fs irest rest2 s hneg hinit hsub
    obtain ⟨p0, li, ls, le, q0, q1, q2⟩ := s
    dsimp only at hinit hsub
    subst hinit
    subst hsub
    rw [signin.eq_def]
    try dsimp only
    rw [signinForm_retry_fatal tok fs f0 _ rest2 hneg rfl]
    simp [trace_app_eq]
  · intro tokR f0 fs sess irest rest2 erest s hinit hsub hex
    obtain ⟨p0, li, ls, le, q0, q1, q2⟩ := s
    dsimp only at hinit hsub hex
    subst hinit
    subst hsub
    subst hex
    constructor
    · rw [signup.eq_def]
      try dsimp only
      rw [signupForm_retry_ok tokR sess fs f0 _ rest2 erest rfl rfl]
      simp [trace_app_eq]
    · rw [signup.eq_def]
      try dsimp only
      rw [signupForm_retry_ok tokR sess fs f0 _ rest2 erest rfl rfl]
      simp [trace_app_eq]
  · intro f0 fs irest rest2 s hinit hsub
    obtain ⟨p0, li, ls, le, q0, q1, q2⟩ := s
    dsimp only at hinit hsub
    subst hinit
    subst hsub
    rw [signup.eq_def]
    try dsimp only
    rw [signupForm_retry_fatal fs f0 _ rest2 rfl]
    simp [trace_app_eq]

/-- Evaluation of C2 at concrete runs with two replacement flows
(`N = 2`): the login and registration paths issue three submissions using
the flow ids `a`, `b`, `c` in order, and both end fatally when the final
submission error carries no replacement flow. -/
theorem c2_validation_retry_witness :
    signin "" { loginInits := [.ok ⟨"a", []⟩]
                loginSubmits := [.replacement ⟨"b", []⟩, .replacement ⟨"c", []⟩, .ok "t"]
                loginExchanges := [.ok ⟨"id", .obj []⟩] } =
      (.ok (sessionToContext ⟨"id", .obj []⟩ "t"), {},
       { loginInits := [""], loginSubmissions := ["a", "b", "c"] }) ∧
    signin "" { loginInits := [.ok ⟨"a", []⟩]
                loginSubmits := [.replacement ⟨"b", []⟩, .replacement ⟨"c", []⟩, .fatal] } =
      (.fatal, {}, { loginInits := [""], loginSubmissions := ["a", "b", "c"] }) ∧
    signup { regInits := [.ok ⟨"a", []⟩]
             regSubmits := [.replacement ⟨"b", []⟩, .replacement ⟨"c", []⟩, .ok "t"]
             regExchanges := [.ok ⟨"id", .obj []⟩] } =
      (.ok (sessionToContext ⟨"id", .obj []⟩ "t"), {},
       { regInitCount := 1, regSubmissions := ["a", "b", "c"] }) ∧
    signup { regInits := [.ok ⟨"a", []⟩]
             regSubmits := [.replacement ⟨"b", []⟩, .replacement ⟨"c", []⟩, .fatal] } =
      (.fatal, {}, { regInitCount := 1, regSubmissions := ["a", "b", "c"] }) := by
  have hneg : ∀ f ∈ [(⟨"a", []⟩ : Flow), ⟨"b", []⟩, ⟨"c", []⟩],
      ∃ p, negotiateLoginForm "" f = Except.ok p :=
    fun f _ => ⟨_, negotiateLoginForm_empty f⟩
  refine ⟨?_, ?_, ?_, ?_⟩
  · have h := (c2_validation_retry.1 "" "t" ⟨"a", []⟩ [⟨"b", []⟩, ⟨"c", []⟩]
      ⟨"id", .obj []⟩ [] [] []
      { loginInits := [.ok ⟨"a", []⟩]
        loginSubmits := [.replacement ⟨"b", []⟩, .replacement ⟨"c", []⟩, .ok "t"]
        loginExchanges := [.ok ⟨"id", .obj []⟩] } hneg rfl rfl rfl).1
    simpa using h
  · have h := c2_validation_retry.2.1 "" ⟨"a", []⟩ [⟨"b", []⟩, ⟨"c", []⟩] [] []
      { loginInits := [.ok ⟨"a", []⟩]
        loginSubmits := [.replacement ⟨"b", []⟩, .replacement ⟨"c", []⟩, .fatal] }
      hneg rfl rfl
    simpa using h
  · have h := (c2_validation_retry.2.2.1 "t" ⟨"a", []⟩
      [⟨"b", []⟩, ⟨"c", []⟩] ⟨"id", .obj []⟩ [] [] []
      { regInits := [.ok ⟨"a", []⟩]
        regSubmits := [.replacement ⟨"b", []⟩, .replacement ⟨"c", []⟩, .ok "t"]
        regExchanges := [.ok ⟨"id", .obj []⟩] } rfl rfl rfl).1
    simpa using h
  · have h := c2_validation_retry.2.2.2 ⟨"a", []⟩ [⟨"b", []⟩, ⟨"c", []⟩] [] []
      { regInits := [.ok ⟨"a", []⟩]
        regSubmits := [.replacement ⟨"b", []⟩, .replacement ⟨"c", []⟩, .fatal] }
      rfl rfl
    simpa using h

/-! ### C3 — AAL2 step-up escalation -/

lemma loginFormToBody_password :
    loginFormToBody .passwordBody = some .passwordVariant := rfl

lemma loginFormToBody_totp :
    loginFormToBody .totpBody = some .totpVariant := rfl

/-- C3: when the session exchange after a successful login submission
fails with `error.id = "session_aal2_required"`, the login path is
re-entered exactly once with the just-obtained session token (the trace
records the two initiations `["", t1]` and exactly one escalation), and
the overall sign-in resolves the session returned by the re-entered
attempt's successful exchange; an exchange failure with any other error
identifier is returned as fatal with no escalation. -/
theorem c3_aal2_escalation :
    (∀ (t1 t2 : String) (f0 f1 : Flow) (sess : Session) (s : Script),
      t1 ≠ "" →
      (∃ p, negotiateLoginForm t1 f1 = Except.ok p) →
      s.loginInits = [.ok f0, .ok f1] →
      s.loginSubmits = [.ok t1, .ok t2] →
      s.loginExchanges = [.errAal2, .ok sess] →
      signin "" s =
        (.ok (sessionToContext sess (if t2 = "" then t1 else t2)),
         { s with loginInits := [], loginSubmits := [], loginExchanges := [] },
         { loginInits := ["", t1], loginSubmissions := [f0.id, f1.id],
           escalations := 1 })) ∧
    (∀ (t1 : String) (f0 : Flow) (irest : List InitResult)
        (srest : List LoginSubmitResult) (erest : List ExchangeResult)
        (s : Script),
      s.loginInits = .ok f0 :: irest →
      s.loginSubmits = .ok t1 :: srest →
      s.loginExchanges = .errOther :: erest →
      signin "" s =
        (.fatal,
         { s with loginInits := irest, loginSubmits := srest,
                  loginExchanges := erest },
         { loginInits := [""], loginSubmissions := [f0.id] })) := by
  constructor
  · intro t1 t2 f0 f1 sess s ht1 hneg1 hinit hsub hex
    obtain ⟨⟨m, form⟩, hp⟩ := hneg1
    obtain ⟨b, hb⟩ := negotiateLoginForm_form t1 f1 (m, form) hp
    dsimp at hb
    obtain ⟨p0, li, ls, le, q0, q1, q2⟩ := s
    dsimp only at hinit hsub hex
    subst hinit
    subst hsub
    subst hex
    simp [signin.eq_def, signinForm.eq_def, negotiateLoginForm_empty, hp,
      hb, ht1, trace_app_eq, loginFormToBody_password, loginFormToBody_totp]
  · intro t1 f0 irest srest erest s hinit hsub hex
    obtain ⟨p0, li, ls, le, q0, q1, q2⟩ := s
    dsimp only at hinit hsub hex
    subst hinit
    subst hsub
    subst hex
    simp [signin.eq_def, signinForm.eq_def, negotiateLoginForm_empty,
      trace_app_eq, loginFormToBody_password]

/-- Evaluation of C3 at a concrete run: a password sign-in whose exchange
demands AAL2, followed by a TOTP step-up whose exchange succeeds, ends
successfully with exactly one escalation; and a run whose exchange fails
with a different error identifier is fatal. -/
theorem c3_aal2_escalation_witness :
    signin "" { loginInits := [.ok ⟨"f0", []⟩, .ok ⟨"f1", [⟨"totp"⟩]⟩]
                loginSubmits := [.ok "tok1", .ok "tok2"]
                loginExchanges := [.errAal2, .ok ⟨"id", .obj []⟩] } =
      (.ok (sessionToContext ⟨"id", .obj []⟩ "tok2"), {},
       { loginInits := ["", "tok1"], loginSubmissions := ["f0", "f1"],
         escalations := 1 }) ∧
    signin "" { loginInits := [.ok ⟨"f0", []⟩]
                loginSubmits := [.ok "tok1"]
                loginExchanges := [.errOther] } =
      (.fatal, {}, { loginInits := [""], loginSubmissions := ["f0"] }) := by
  constructor
  · have h := c3_aal2_escalation.1 "tok1" "tok2" ⟨"f0", []⟩
      ⟨"f1", [⟨"totp"⟩]⟩ ⟨"id", .obj []⟩
      { loginInits := [.ok ⟨"f0", []⟩, .ok ⟨"f1", [⟨"totp"⟩]⟩]
        loginSubmits := [.ok "tok1", .ok "tok2"]
        loginExchanges := [.errAal2, .ok ⟨"id", .obj []⟩] }
      (by decide) ⟨("totp", .totpBody), rfl⟩ rfl rfl rfl
    simpa using h
  · have h := c3_aal2_escalation.2 "tok1" ⟨"f0", []⟩ [] [] []
      { loginInits := [.ok ⟨"f0", []⟩]
        loginSubmits := [.ok "tok1"]
        loginExchanges := [.errOther] } rfl rfl rfl
    simpa using h

/-! ### C7 — no-session branching of the orchestration -/

lemma string_length_empty : ("" : String).length = 0 := rfl

/-- C7 as stated is false: with the config file absent (the first of the
claim's two "no session" scenarios), `EnsureContext` returns no context
and no error without asking anything and without authenticating — here on
a script that could have answered every prompt and completed a full
sign-in, the run returns `none`, touches nothing, and its trace is
empty. -/
theorem c7_branching_counterexample :
    ensureContext false .absent
      { prompts := [true, true]
        loginInits := [.ok ⟨"f0", []⟩]
        loginSubmits := [.ok "tok"]
        loginExchanges := [.ok ⟨"id", .obj [("email", .str "a@b")]⟩] } =
      (.ok none, .absent,
       { prompts := [true, true]
         loginInits := [.ok ⟨"f0", []⟩]
         loginSubmits := [.ok "tok"]
         loginExchanges := [.ok ⟨"id", .obj [("email", .str "a@b")]⟩] },
       {}) := by
  simp [ensureContext, readConfig]

/-- C7 amended: when the config file exists and holds an empty session
token, `EnsureContext` delegates to `Authenticate`, which asks whether
the user already has an account and branches to the login path (answer
yes) or the registration path (answer no), persisting on success; when
the config file is absent, both `EnsureContext` and `Authenticate`
return no context and no error without prompting or authenticating. -/
theorem c7_no_session_branching :
    (∀ (nc : Bool) (s : Script),
      ensureContext nc .absent s = (.ok none, .absent, s, {})) ∧
    (∀ (s : Script),
      authenticate false .absent s = (.ok none, .absent, s, {})) ∧
    (∀ (fs : FileState) (c : AuthContext) (s : Script),
      readConfig fs = .ok c → c.SessionToken = "" →
      ensureContext false fs s = authenticate false fs s) ∧
    (∀ (fs : FileState) (c : AuthContext) (s : Script) (ps : List Bool),
      readConfig fs = .ok c → c.SessionToken = "" →
      s.prompts = true :: ps →
      authenticate false fs s =
        ((match (signin "" { s with prompts := ps }).1 with
          | .ok cc => OrchResult.ok (some (writeConfigStored cc))
          | .fatal => .fatal
          | .panicked => .panicked
          | .exhausted => .exhausted),
         (match (signin "" { s with prompts := ps }).1 with
          | .ok cc => writeConfigFS cc
          | _ => fs),
         (signin "" { s with prompts := ps }).2.1,
         ({ prompts := [PromptKind.hasAccount] } : Trace) ++
           (signin "" { s with prompts := ps }).2.2)) ∧
    (∀ (fs : FileState) (c : AuthContext) (s : Script) (ps : List Bool),
      readConfig fs = .ok c → c.SessionToken = "" →
      s.prompts = false :: ps →
      authenticate false fs s =
        ((match (signup { s with prompts := ps }).1 with
          | .ok cc => OrchResult.ok (some (writeConfigStored cc))
          | .fatal => .fatal
          | .panicked => .panicked
          | .exhausted => .exhausted),
         (match (signup { s with prompts := ps }).1 with
          | .ok cc => writeConfigFS cc
          | _ => fs),
         (signup { s with prompts := ps }).2.1,
         ({ prompts := [PromptKind.hasAccount] } : Trace) ++
           (signup { s with prompts := ps }).2.2)) := by
  refine ⟨?_, ?_, ?_, ?_, ?_⟩
  · intro nc s
    simp [ensureContext, readConfig]
  · intro s
    simp [authenticate, readConfig]
  · intro fs c s hread hc
    simp [ensureContext, authenticate, hread, hc, string_length_empty]
  · intro fs c s ps hread hc hps
    simp only [authenticate, hread, hc, string_length_empty, Bool.false_eq_true,
      if_false, authenticateBody, hps, gt_iff_lt, lt_irrefl, if_true]
    rcases hout : signin "" { s with prompts := ps } with ⟨r, s2, t2⟩
    cases r <;> simp [hout]
  · intro fs c s ps hread hc hps
    simp only [authenticate, hread, hc, string_length_empty, Bool.false_eq_true,
      if_false, authenticateBody, hps, gt_iff_lt, lt_irrefl, if_true]
    rcases hout : signup { s with prompts := ps } with ⟨r, s2, t2⟩
    cases r <;> simp [hout]

/-- Evaluation of C7 (amended) at a concrete state: a persisted signed-out
config (empty session token), a yes answer branching into a completed
login run, and a no answer branching into a completed registration run. -/
theorem c7_no_session_branching_witness :
    ensureContext false (writeConfigFS zeroAuthContext)
        { prompts := [true]
          loginInits := [.ok ⟨"f0", []⟩]
          loginSubmits := [.ok "tok"]
          loginExchanges := [.ok ⟨"id", .obj [("email", .str "a@b")]⟩] } =
      authenticate false (writeConfigFS zeroAuthContext)
        { prompts := [true]
          loginInits := [.ok ⟨"f0", []⟩]
          loginSubmits := [.ok "tok"]
          loginExchanges := [.ok ⟨"id", .obj [("email", .str "a@b")]⟩] } ∧
    authenticate false (writeConfigFS zeroAuthContext)
        { prompts := [true]
          loginInits := [.ok ⟨"f0", []⟩]
          loginSubmits := [.ok "tok"]
          loginExchanges := [.ok ⟨"id", .obj [("email", .str "a@b")]⟩] } =
      (.ok (some (writeConfigStored
         (sessionToContext ⟨"id", .obj [("email", .str "a@b")]⟩ "tok"))),
       writeConfigFS
         (sessionToContext ⟨"id", .obj [("email", .str "a@b")]⟩ "tok"),
       {},
       { prompts := [.hasAccount], loginInits := [""],
         loginSubmissions := ["f0"] }) ∧
    authenticate false (writeConfigFS zeroAuthContext)
        { prompts := [false]
          regInits := [.ok ⟨"r0", []⟩]
          regSubmits := [.ok "tok"]
          regExchanges := [.ok ⟨"id", .obj [("email", .str "a@b")]⟩] } =
      (.ok (some (writeConfigStored
         (sessionToContext ⟨"id", .obj [("email", .str "a@b")]⟩ "tok"))),
       writeConfigFS
         (sessionToContext ⟨"id", .obj [("email", .str "a@b")]⟩ "tok"),
       {},
       { prompts := [.hasAccount], regInitCount := 1,
         regSubmissions := ["r0"] }) := by
  refine ⟨?_, ?_, ?_⟩
  · exact c7_no_session_branching.2.2.1 (writeConfigFS zeroAuthContext)
      (writeConfigStored zeroAuthContext) _
      (readConfig_writeConfig zeroAuthContext) rfl
  · have h := c7_no_session_branching.2.2.2.1 (writeConfigFS zeroAuthContext)
      (writeConfigStored zeroAuthContext)
      { prompts := [true]
        loginInits := [.ok ⟨"f0", []⟩]
        loginSubmits := [.ok "tok"]
        loginExchanges := [.ok ⟨"id", .obj [("email", .str "a@b")]⟩] } []
      (readConfig_writeConfig zeroAuthContext) rfl rfl
    rw [h]
    simp [signin.eq_def, signinForm.eq_def, negotiateLoginForm_empty,
      loginFormToBody_password, trace_app_eq]
  · have h := c7_no_session_branching.2.2.2.2 (writeConfigFS zeroAuthContext)
      (writeConfigStored zeroAuthContext)
      { prompts := [false]
        regInits := [.ok ⟨"r0", []⟩]
        regSubmits := [.ok "tok"]
        regExchanges := [.ok ⟨"id", .obj [("email", .str "a@b")]⟩] } []
      (readConfig_writeConfig zeroAuthContext) rfl rfl
    rw [h]
    simp [signup, signupForm.eq_def, trace_app_eq]

/-! ### C8 — the session-token/email invariant -/

lemma fromStringOrNil_empty : fromStringOrNil "" = uuidNil := by decide

/-- C8 as stated is false: the core copies the `email` trait verbatim and
does not enforce its presence, so a session whose identity traits lack an
email yields — through a full `Authenticate` run — a returned and
persisted `AuthContext` with a non-empty session token and an empty
email. -/
theorem c8_email_invariant_counterexample :
    authenticate false (writeConfigFS zeroAuthContext)
        { prompts := [true]
          loginInits := [.ok ⟨"f0", []⟩]
          loginSubmits := [.ok "tok"]
          loginExchanges := [.ok ⟨"", .obj []⟩] } =
      (.ok (some { Version := "v0alpha0", SessionToken := "tok",
                   SelectedProject := uuidNil,
                   IdentityTraits := { ID := uuidNil, Email := "" } }),
       writeConfigFS { Version := "v0alpha0", SessionToken := "tok",
                       SelectedProject := uuidNil,
                       IdentityTraits := { ID := uuidNil, Email := "" } },
       {},
       { prompts := [.hasAccount], loginInits := [""],
         loginSubmissions := ["f0"] }) := by
  simp [authenticate, readConfig_writeConfig, writeConfigStored,
    zeroAuthContext, string_length_empty, authenticateBody, signin.eq_def,
    signinForm.eq_def, negotiateLoginForm_empty, loginFormToBody_password,
    trace_app_eq, sessionToContext, gjsonGetString, lookupField,
    fromStringOrNil_empty, version]

/-- C8 amended: an `AuthContext` produced by `sessionToContext` satisfies
the invariant — non-empty session token implies non-empty email —
whenever the session's identity traits do carry a non-empty email string;
the email field is always the verbatim result of the `email` trait
lookup. -/
theorem c8_email_invariant (sess : Session) (token : String)
    (hemail : gjsonGetString sess.traits "email" ≠ "") :
    (sessionToContext sess token).IdentityTraits.Email =
      gjsonGetString sess.traits "email" ∧
    ((sessionToContext sess token).SessionToken ≠ "" →
      (sessionToContext sess token).IdentityTraits.Email ≠ "") := by
  refine ⟨rfl, fun _ => ?_⟩
  simpa [sessionToContext] using hemail

/-- Evaluation of C8 (amended) at a concrete session carrying an email
trait. -/
theorem c8_email_invariant_witness :
    gjsonGetString (Json.obj [("email", .str "a@b")]) "email" ≠ "" ∧
    (sessionToContext ⟨"id", .obj [("email", .str "a@b")]⟩ "tok").SessionToken ≠ "" ∧
    (sessionToContext ⟨"id", .obj [("email", .str "a@b")]⟩ "tok").IdentityTraits.Email ≠ "" := by
  have hm : gjsonGetString (Json.obj [("email", .str "a@b")]) "email" ≠ "" := by
    simp [gjsonGetString, lookupField]
  exact ⟨hm, by simp [sessionToContext],
    (c8_email_invariant ⟨"id", .obj [("email", .str "a@b")]⟩ "tok" hm).2
      (by simp [sessionToContext])⟩

end OryCli
